import Mathlib

/-
Verification of the aggregation-and-cache engine of `m.py`
(telegram_multi_lookup): provider wrappers `call_numverify`,
`call_twilio_lookup`, `call_whitepages_placeholder`, the fan-out and merge
in `aggregate_lookups` (lines 97-170), the `@cached(lookup_cache)` TTL
memoization (line 30/97) and the `num_handler` input sanitization
(line 211), shallowly embedded over JSON-like Python values.
-/

namespace LB

/-- JSON-like Python values as they occur in the dicts of `m.py`:
`None`, strings, booleans, integers and (string-keyed) dicts.
A dict is an association list in insertion order, as in Python. -/
inductive Val where
  | none : Val
  | str : String → Val
  | bool : Bool → Val
  | int : Int → Val
  | dict : List (String × Val) → Val

/-- Python `d.get(k)` on a dict: the value stored at the first matching
key, defaulting to `None`. -/
def dget (d : List (String × Val)) (k : String) : Val :=
  match d with
  | [] => Val.none
  | p :: t => if p.1 = k then p.2 else dget t k

/-- Python `d[k] = v` on a dict: replace the value at `k` if the key is
present, otherwise append the new pair at the end (insertion order). -/
def dset (d : List (String × Val)) (k : String) (v : Val) : List (String × Val) :=
  match d with
  | [] => [(k, v)]
  | p :: t => if p.1 = k then (k, v) :: t else p :: dset t k v

/-- Python truthiness: `None`, `""`, `False`, `0` and `{}` are falsy,
everything else is truthy. -/
def truthy : Val → Bool
  | Val.none => false
  | Val.str s => s != ""
  | Val.bool b => b
  | Val.int n => n != 0
  | Val.dict d => !d.isEmpty

/-- Python `a or b`: `a` if `a` is truthy, else `b`. -/
def pyOr (a b : Val) : Val :=
  if truthy a then a else b

/-- Python `x.get(k)` where `x` is known to be a dict value; on a
non-dict the source would raise `AttributeError`, which never happens at
the places this helper embeds (the receiver is always a dict there). -/
def vget (v : Val) (k : String) : Val :=
  match v with
  | Val.dict d => dget d k
  | _ => Val.none

/-- Python `x is None` test. -/
def isNoneV : Val → Bool
  | Val.none => true
  | _ => false

/-- Key list of a dict, in insertion order. -/
def akeys (d : List (String × Val)) : List String :=
  d.map Prod.fst

/-- Process environment of `m.py` lines 22-26: the provider credentials,
each a string or `None` (absent). -/
structure Env where
  NUMVERIFY_KEY : Val
  TWILIO_SID : Val
  TWILIO_AUTH : Val
  WHITEPAGES_KEY : Val

/-- Outcome of the Twilio HTTP GET in `call_twilio_lookup`: either an
exception while requesting or decoding (`exc`), or a received response
with status code, parsed JSON object body (consulted only on status 200)
and raw text. A 200 body that is not a JSON object would raise during
`data["provider"] = ...` and is covered by `exc`. -/
inductive TwResp where
  | exc : String → TwResp
  | resp : Int → List (String × Val) → String → TwResp

/-- Lines 38-57 of m.py, `call_numverify`. `resp` is the outcome of the
HTTP GET: `Except.error e` models any raised exception (transport error,
`raise_for_status` on a non-2xx status, JSON decode failure, non-object
body) with message `e`; `Except.ok data` is the parsed JSON object body
of a successful response. -/
def call_numverify (env : Env) (resp : Except String (List (String × Val))) :
    List (String × Val) :=
  if !truthy env.NUMVERIFY_KEY then
    [("provider", Val.str "numverify"), ("available", Val.bool false),
     ("error", Val.str "No NUMVERIFY_KEY configured")]
  else
    match resp with
    | Except.ok data =>
        dset (dset data "provider" (Val.str "numverify")) "available" (Val.bool true)
    | Except.error e =>
        [("provider", Val.str "numverify"), ("available", Val.bool false),
         ("error", Val.str e)]

/-- Lines 59-82 of m.py, `call_twilio_lookup`. Note the non-200 branch
returns a dict with `status_code` and `text` but no `error` key. -/
def call_twilio_lookup (env : Env) (resp : TwResp) : List (String × Val) :=
  if !(truthy env.TWILIO_SID && truthy env.TWILIO_AUTH) then
    [("provider", Val.str "twilio"), ("available", Val.bool false),
     ("error", Val.str "No Twilio credentials configured")]
  else
    match resp with
    | TwResp.resp status body text =>
        if status == 200 then
          dset (dset body "provider" (Val.str "twilio")) "available" (Val.bool true)
        else
          [("provider", Val.str "twilio"), ("available", Val.bool false),
           ("status_code", Val.int status), ("text", Val.str text)]
    | TwResp.exc e =>
        [("provider", Val.str "twilio"), ("available", Val.bool false),
         ("error", Val.str e)]

/-- Lines 84-93 of m.py, `call_whitepages_placeholder`: never performs a
request, always unavailable. -/
def call_whitepages_placeholder (env : Env) : List (String × Val) :=
  if !truthy env.WHITEPAGES_KEY then
    [("provider", Val.str "whitepages"), ("available", Val.bool false),
     ("error", Val.str "No WHITEPAGES_KEY configured")]
  else
    [("provider", Val.str "whitepages"), ("available", Val.bool false),
     ("error", Val.str "Placeholder - configure Whitepages integration")]

/-- Outcome of the three provider calls as seen by the fan-out in
`aggregate_lookups` (lines 103-120): each call either returns a dict
(`Except.ok`) or raises (`Except.error`, caught by the per-provider
`try/except`). -/
structure FanIn where
  nv : Except String (List (String × Val))
  tw : Except String (List (String × Val))
  wp : Except String (List (String × Val))

/-- One `try/except` arm of the fan-out (e.g. lines 105-108): a raised
exception is converted into a failure dict tagged with the provider
name. -/
def catchCall (name : String) (c : Except String (List (String × Val))) :
    List (String × Val) :=
  match c with
  | Except.ok d => d
  | Except.error e =>
      [("provider", Val.str name), ("available", Val.bool false),
       ("error", Val.str e)]

/-- Lines 103-120 of m.py: the `results` dict built by the fan-out,
one entry per configured provider. -/
def fanOutResults (f : FanIn) : List (String × Val) :=
  [("numverify", Val.dict (catchCall "numverify" f.nv)),
   ("twilio", Val.dict (catchCall "twilio" f.tw)),
   ("whitepages", Val.dict (catchCall "whitepages" f.wp))]

/-- Lines 123-135 of m.py: the initial `merged` dict. -/
def initMerged (number : String) (results : List (String × Val)) :
    List (String × Val) :=
  [("queried_number", Val.str number),
   ("providers", Val.dict results),
   ("international_format", Val.none),
   ("valid", Val.none),
   ("country_name", Val.none),
   ("country_code", Val.none),
   ("location", Val.none),
   ("carrier", Val.none),
   ("line_type", Val.none),
   ("caller_name", Val.none)]

/-- Lines 137-146 of m.py: the `# From Numverify` block. Each field is
written with `nv.get(f) or merged[f]`, except `valid` which uses an
`is None` test on the current `merged["valid"]`. -/
def mergeNv (nv : Val) (merged : List (String × Val)) : List (String × Val) :=
  if truthy (vget nv "available") then
    let m1 := dset merged "international_format"
      (pyOr (vget nv "international_format") (dget merged "international_format"))
    let m2 := dset m1 "valid"
      (if isNoneV (dget m1 "valid") then vget nv "valid" else dget m1 "valid")
    let m3 := dset m2 "country_name" (pyOr (vget nv "country_name") (dget m2 "country_name"))
    let m4 := dset m3 "country_code" (pyOr (vget nv "country_code") (dget m3 "country_code"))
    let m5 := dset m4 "location" (pyOr (vget nv "location") (dget m4 "location"))
    let m6 := dset m5 "carrier" (pyOr (vget nv "carrier") (dget m5 "carrier"))
    dset m6 "line_type" (pyOr (vget nv "line_type") (dget m6 "line_type"))
  else merged

/-- Lines 152-153 of m.py: the Twilio `phone_number` step. -/
def mergeTwPhone (tw : Val) (m : List (String × Val)) : List (String × Val) :=
  if truthy (vget tw "phone_number") then
    dset m "international_format"
      (pyOr (vget tw "phone_number") (dget m "international_format"))
  else m

/-- Lines 154-158 of m.py: `carrier = tw.get("carrier") or {}` followed,
when `carrier` is truthy, by `carrier.get("name")` and
`carrier.get("type")`. If `carrier` is truthy but not a dict the source
raises `AttributeError` (there is no `isinstance` guard here, unlike the
caller-name step), modelled by `Except.error`. -/
def mergeTwCarrier (tw : Val) (m : List (String × Val)) :
    Except String (List (String × Val)) :=
  let carrier := pyOr (vget tw "carrier") (Val.dict [])
  if truthy carrier then
    match carrier with
    | Val.dict d =>
        let ma := dset m "carrier" (pyOr (dget d "name") (dget m "carrier"))
        Except.ok (dset ma "line_type" (pyOr (dget d "type") (dget ma "line_type")))
    | _ => Except.error "AttributeError: object has no attribute get"
  else Except.ok m

/-- Lines 159-166 of m.py: the Twilio caller-name step, with its
`isinstance(cn, dict)` guard. -/
def mergeTwCn (tw : Val) (m : List (String × Val)) : List (String × Val) :=
  let cn := vget tw "caller_name"
  if truthy cn then
    match cn with
    | Val.dict _ => dset m "caller_name" (pyOr (vget cn "caller_name") (dget m "caller_name"))
    | _ => dset m "caller_name" (pyOr cn (dget m "caller_name"))
  else m

/-- Lines 148-166 of m.py: the `# From Twilio` block. -/
def mergeTw (tw : Val) (merged : List (String × Val)) :
    Except String (List (String × Val)) :=
  if truthy (vget tw "available") then
    (mergeTwCarrier tw (mergeTwPhone tw merged)).map (mergeTwCn tw)
  else Except.ok merged

/-- Lines 122-168 of m.py: the full `merged` dict computed from the
`results` dict (`nv = results.get("numverify") or {}`,
`tw = results.get("twilio") or {}`; the whitepages entry is never read). -/
def mergedOfE (number : String) (results : List (String × Val)) :
    Except String (List (String × Val)) :=
  mergeTw (pyOr (dget results "twilio") (Val.dict []))
    (mergeNv (pyOr (dget results "numverify") (Val.dict []))
      (initMerged number results))

/-- Line 170 of m.py: `return {"merged": merged, "raw": results}`. -/
def mergeAndBundle (number : String) (results : List (String × Val)) :
    Except String Val :=
  (mergedOfE number results).map
    (fun m => Val.dict [("merged", Val.dict m), ("raw", Val.dict results)])

/-- Lines 97-170 of m.py: one un-cached run of `aggregate_lookups`,
given the outcome `f` of the three provider calls. An `Except.error`
result models an exception propagating out of the function (possible
only in the Twilio carrier step of the merge). -/
def aggregate_lookups (number : String) (f : FanIn) : Except String Val :=
  mergeAndBundle number (fanOutResults f)

/-- Line 211 of m.py: the `num_handler` sanitization
`number.startswith("+") and all(ch.isdigit() for ch in number[1:])`,
expressed on the character list of the string. -/
def numberSanitized (number : String) : Bool :=
  match number.toList with
  | [] => false
  | c :: rest => c == '+' && rest.all Char.isDigit

/-- The canonical consolidated fields of the spec's ConsolidatedRecord. -/
def canonicalFields : List String :=
  ["international_format", "valid", "country_name", "country_code",
   "location", "carrier", "line_type", "caller_name"]

/-- The exact key set of the `merged` dict (lines 123-135). -/
def mergedKeys : List String :=
  ["queried_number", "providers", "international_format", "valid",
   "country_name", "country_code", "location", "carrier", "line_type",
   "caller_name"]

theorem dget_dset (d : List (String × Val)) (k k' : String) (v : Val) :
    dget (dset d k v) k' = if k' = k then v else dget d k' := by
  induction d with
  | nil =>
      by_cases h : k' = k
      · simp [dget, dset, h]
      · have h' : ¬k = k' := fun he => h he.symm
        simp [dget, dset, h, h']
  | cons p t ih =>
      by_cases hp : p.1 = k
      · by_cases h : k' = k
        · simp [dget, dset, hp, h]
        · have h' : ¬k = k' := fun he => h he.symm
          have hp' : ¬p.1 = k' := fun he => h' (hp ▸ he)
          simp [dget, dset, hp, h, h', hp']
      · by_cases h : p.1 = k'
        · have h' : ¬k' = k := fun he => hp (he ▸ h)
          simp [dget, dset, hp, h, h']
        · simp [dget, dset, hp, h, ih]

theorem pyOr_of_true {a : Val} (h : truthy a = true) (b : Val) : pyOr a b = a := by
  simp [pyOr, h]

theorem pyOr_of_false {a : Val} (h : truthy a = false) (b : Val) : pyOr a b = b := by
  simp [pyOr, h]

theorem pyOr_dict_empty (r : List (String × Val)) :
    pyOr (Val.dict r) (Val.dict []) = Val.dict r := by
  cases r <;> rfl

theorem akeys_dset_of_mem (d : List (String × Val)) (k : String) (v : Val)
    (h : k ∈ akeys d) : akeys (dset d k v) = akeys d := by
  induction d with
  | nil => simp [akeys] at h
  | cons p t ih =>
      by_cases hp : p.1 = k
      · simp [dset, akeys, hp]
      · have hm : k ∈ akeys t := by
          simp [akeys] at h ⊢
          rcases h with h | h
          · exact absurd h.symm hp
          · exact h
        have ih' := ih hm
        simp [dset, akeys, hp] at ih' ⊢
        exact ih'

theorem akeys_dset_key (d : List (String × Val)) (k : String) (v : Val)
    (h : akeys d = mergedKeys) (hk : k ∈ mergedKeys) :
    akeys (dset d k v) = mergedKeys := by
  rw [akeys_dset_of_mem d k v (h ▸ hk)]
  exact h

theorem dget_mergeNv (nv : Val) (m : List (String × Val)) (k : String) :
    dget (mergeNv nv m) k =
      if truthy (vget nv "available") then
        if k = "international_format" then
          pyOr (vget nv "international_format") (dget m k)
        else if k = "valid" then
          (if isNoneV (dget m "valid") then vget nv "valid" else dget m "valid")
        else if k = "country_name" then pyOr (vget nv "country_name") (dget m k)
        else if k = "country_code" then pyOr (vget nv "country_code") (dget m k)
        else if k = "location" then pyOr (vget nv "location") (dget m k)
        else if k = "carrier" then pyOr (vget nv "carrier") (dget m k)
        else if k = "line_type" then pyOr (vget nv "line_type") (dget m k)
        else dget m k
      else dget m k := by
  unfold mergeNv
  by_cases ha : truthy (vget nv "available")
  · simp only [ha, if_true]
    by_cases h1 : k = "international_format"
    · subst h1; simp [dget_dset]
    · by_cases h2 : k = "valid"
      · subst h2; simp [dget_dset]
      · by_cases h3 : k = "country_name"
        · subst h3; simp [dget_dset]
        · by_cases h4 : k = "country_code"
          · subst h4; simp [dget_dset]
          · by_cases h5 : k = "location"
            · subst h5; simp [dget_dset]
            · by_cases h6 : k = "carrier"
              · subst h6; simp [dget_dset]
              · by_cases h7 : k = "line_type"
                · subst h7; simp [dget_dset]
                · simp [dget_dset, h1, h2, h3, h4, h5, h6, h7]
  · simp [ha]

theorem dget_mergeTwPhone (tw : Val) (m : List (String × Val)) (k : String) :
    dget (mergeTwPhone tw m) k =
      if k = "international_format" then
        pyOr (vget tw "phone_number") (dget m k)
      else dget m k := by
  unfold mergeTwPhone
  cases hp : truthy (vget tw "phone_number") with
  | true =>
      by_cases h : k = "international_format"
      · subst h; simp [hp, dget_dset]
      · simp [hp, dget_dset, h]
  | false =>
      by_cases h : k = "international_format"
      · subst h; simp [hp, pyOr_of_false hp]
      · simp [hp, h]

theorem dget_mergeTwCn (tw : Val) (m : List (String × Val)) (k : String) :
    dget (mergeTwCn tw m) k =
      if k = "caller_name" then
        (if truthy (vget tw "caller_name") then
          (match vget tw "caller_name" with
            | Val.dict _ =>
                pyOr (vget (vget tw "caller_name") "caller_name") (dget m "caller_name")
            | _ => pyOr (vget tw "caller_name") (dget m "caller_name"))
        else dget m "caller_name")
      else dget m k := by
  unfold mergeTwCn
  by_cases hc : truthy (vget tw "caller_name")
  · simp only [hc, if_true]
    by_cases h : k = "caller_name"
    · subst h
      cases hv : vget tw "caller_name" <;> simp [hv, dget_dset]
    · cases hv : vget tw "caller_name" <;> simp [hv, dget_dset, h]
  · by_cases h : k = "caller_name" <;> simp [hc, h]

theorem mergeTwCarrier_ok_cases (tw : Val) (m m2 : List (String × Val))
    (h : mergeTwCarrier tw m = Except.ok m2) :
    (truthy (pyOr (vget tw "carrier") (Val.dict [])) = false ∧ m2 = m) ∨
    (∃ d, pyOr (vget tw "carrier") (Val.dict []) = Val.dict d ∧
      truthy (Val.dict d) = true ∧
      m2 = dset (dset m "carrier" (pyOr (dget d "name") (dget m "carrier")))
            "line_type"
            (pyOr (dget d "type")
              (dget (dset m "carrier" (pyOr (dget d "name") (dget m "carrier")))
                "line_type"))) := by
  simp only [mergeTwCarrier] at h
  cases hc : truthy (pyOr (vget tw "carrier") (Val.dict [])) with
  | false =>
      left
      rw [hc] at h
      simp at h
      exact ⟨rfl, h.symm⟩
  | true =>
      right
      rw [hc] at h
      simp only [if_true] at h
      cases hv : pyOr (vget tw "carrier") (Val.dict []) with
      | dict d =>
          rw [hv] at h
          simp at h
          exact ⟨d, rfl, hv ▸ hc, h.symm⟩
      | none => rw [hv] at h; simp at h
      | str s => rw [hv] at h; simp at h
      | bool b => rw [hv] at h; simp at h
      | int n => rw [hv] at h; simp at h

theorem mergedOfE_ok_cases (number : String) (results : List (String × Val))
    (M : List (String × Val)) (h : mergedOfE number results = Except.ok M) :
    (truthy (vget (pyOr (dget results "twilio") (Val.dict [])) "available") = false ∧
      M = mergeNv (pyOr (dget results "numverify") (Val.dict []))
            (initMerged number results)) ∨
    (truthy (vget (pyOr (dget results "twilio") (Val.dict [])) "available") = true ∧
      ∃ m2, mergeTwCarrier (pyOr (dget results "twilio") (Val.dict []))
              (mergeTwPhone (pyOr (dget results "twilio") (Val.dict []))
                (mergeNv (pyOr (dget results "numverify") (Val.dict []))
                  (initMerged number results))) = Except.ok m2 ∧
        M = mergeTwCn (pyOr (dget results "twilio") (Val.dict [])) m2) := by
  simp only [mergedOfE, mergeTw] at h
  cases ht : truthy (vget (pyOr (dget results "twilio") (Val.dict [])) "available") with
  | false =>
      left
      rw [ht] at h
      simp at h
      exact ⟨rfl, h.symm⟩
  | true =>
      right
      rw [ht] at h
      simp only [if_true] at h
      cases hm : mergeTwCarrier (pyOr (dget results "twilio") (Val.dict []))
          (mergeTwPhone (pyOr (dget results "twilio") (Val.dict []))
            (mergeNv (pyOr (dget results "numverify") (Val.dict []))
              (initMerged number results))) with
      | ok m2 =>
          rw [hm] at h
          simp [Except.map] at h
          exact ⟨rfl, m2, rfl, h.symm⟩
      | error e =>
          rw [hm] at h
          simp [Except.map] at h

theorem akeys_mergeNv (nv : Val) (m : List (String × Val))
    (h : akeys m = mergedKeys) : akeys (mergeNv nv m) = mergedKeys := by
  unfold mergeNv
  by_cases ha : truthy (vget nv "available")
  · simp only [ha, if_true]
    exact akeys_dset_key _ _ _
      (akeys_dset_key _ _ _
        (akeys_dset_key _ _ _
          (akeys_dset_key _ _ _
            (akeys_dset_key _ _ _
              (akeys_dset_key _ _ _
                (akeys_dset_key _ _ _ h (by decide))
                (by decide))
              (by decide))
            (by decide))
          (by decide))
        (by decide))
      (by decide)
  · simpa [ha] using h

theorem akeys_mergeTwPhone (tw : Val) (m : List (String × Val))
    (h : akeys m = mergedKeys) : akeys (mergeTwPhone tw m) = mergedKeys := by
  unfold mergeTwPhone
  by_cases hp : truthy (vget tw "phone_number")
  · simp only [hp, if_true]
    exact akeys_dset_key _ _ _ h (by decide)
  · simpa [hp] using h

theorem akeys_mergeTwCn (tw : Val) (m : List (String × Val))
    (h : akeys m = mergedKeys) : akeys (mergeTwCn tw m) = mergedKeys := by
  unfold mergeTwCn
  by_cases hc : truthy (vget tw "caller_name")
  · simp only [hc, if_true]
    cases hv : vget tw "caller_name" <;>
      exact akeys_dset_key _ _ _ h (by decide)
  · simpa [hc] using h

theorem akeys_mergeTwCarrier_ok (tw : Val) (m m2 : List (String × Val))
    (hok : mergeTwCarrier tw m = Except.ok m2) (h : akeys m = mergedKeys) :
    akeys m2 = mergedKeys := by
  rcases mergeTwCarrier_ok_cases tw m m2 hok with ⟨_, rfl⟩ | ⟨d, _, _, rfl⟩
  · exact h
  · exact akeys_dset_key _ _ _ (akeys_dset_key _ _ _ h (by decide)) (by decide)

theorem akeys_mergedOfE_ok (number : String) (results : List (String × Val))
    (M : List (String × Val)) (h : mergedOfE number results = Except.ok M) :
    akeys M = mergedKeys := by
  have h0 : akeys (initMerged number results) = mergedKeys := rfl
  rcases mergedOfE_ok_cases number results M h with ⟨_, rfl⟩ | ⟨_, m2, hok, rfl⟩
  · exact akeys_mergeNv _ _ h0
  · exact akeys_mergeTwCn _ _
      (akeys_mergeTwCarrier_ok _ _ _ hok
        (akeys_mergeTwPhone _ _ (akeys_mergeNv _ _ h0)))

/-- One `lookup_cache` entry: the memoized bundle and its expiry
deadline (insertion time plus TTL), as in cachetools TTLCache. -/
structure CacheEntry where
  value : Val
  expires : Nat

/-- State of the TTL cache, plus an instrumentation counter: `fanouts`
counts how many times the body of `aggregate_lookups` (one provider
fan-out) has run. -/
structure CacheState where
  entries : List (String × CacheEntry)
  fanouts : Nat

def cacheFind (entries : List (String × CacheEntry)) (k : String) :
    Option CacheEntry :=
  match entries with
  | [] => Option.none
  | p :: t => if p.1 = k then some p.2 else cacheFind t k

def cacheInsert (entries : List (String × CacheEntry)) (k : String)
    (e : CacheEntry) : List (String × CacheEntry) :=
  (k, e) :: entries.filter (fun p => p.1 != k)

/-- A cache miss in the `@cached(lookup_cache)` wrapper: run the body;
on success store the bundle with deadline `now + ttl`; a raised
exception propagates and caches nothing. Either way one fan-out ran. -/
def cacheMiss (number : String) (f : FanIn) (now ttl : Nat) (st : CacheState) :
    Except String Val × CacheState :=
  match aggregate_lookups number f with
  | Except.ok v =>
      (Except.ok v,
       ⟨cacheInsert st.entries number ⟨v, now + ttl⟩, st.fanouts + 1⟩)
  | Except.error e => (Except.error e, ⟨st.entries, st.fanouts + 1⟩)

/-- Lines 30 and 97-98 of m.py: `aggregate_lookups` under
`@cached(TTLCache(maxsize=10000, ttl=CACHE_TTL))`. A stored entry is
served while `now` is at most its deadline; an entry past its deadline
is treated as absent (lazy expiry at lookup). Time is an explicit `Nat`
parameter. The maxsize-10000 LRU eviction is not modelled; no claim
involves more than one key. -/
def cached_aggregate (number : String) (f : FanIn) (now ttl : Nat)
    (st : CacheState) : Except String Val × CacheState :=
  match cacheFind st.entries number with
  | some e =>
      if now ≤ e.expires then (Except.ok e.value, st)
      else cacheMiss number f now ttl st
  | Option.none => cacheMiss number f now ttl st

theorem cacheFind_insert (entries : List (String × CacheEntry)) (k : String)
    (e : CacheEntry) : cacheFind (cacheInsert entries k e) k = some e := by
  simp [cacheInsert, cacheFind]

theorem vget_dict (d : List (String × Val)) (k : String) :
    vget (Val.dict d) k = dget d k := rfl

/-- A dict with a truthy value under some key is itself truthy. -/
theorem truthy_dict_of_dget (c : List (String × Val)) (k : String)
    (h : truthy (dget c k) = true) : truthy (Val.dict c) = true := by
  cases c with
  | nil => simp [dget, truthy] at h
  | cons p t => rfl

/-- A three-entry results dict over arbitrary per-provider dicts, the
shape `aggregate_lookups` always passes to the merge. -/
def results3 (rnv rtw rwp : List (String × Val)) : List (String × Val) :=
  [("numverify", Val.dict rnv), ("twilio", Val.dict rtw),
   ("whitepages", Val.dict rwp)]

theorem fanOutResults_eq_results3 (f : FanIn) :
    fanOutResults f = results3 (catchCall "numverify" f.nv)
      (catchCall "twilio" f.tw) (catchCall "whitepages" f.wp) := rfl

theorem results3_nv (rnv rtw rwp : List (String × Val)) :
    pyOr (dget (results3 rnv rtw rwp) "numverify") (Val.dict []) = Val.dict rnv := by
  have h : dget (results3 rnv rtw rwp) "numverify" = Val.dict rnv := rfl
  rw [h, pyOr_dict_empty]

theorem results3_tw (rnv rtw rwp : List (String × Val)) :
    pyOr (dget (results3 rnv rtw rwp) "twilio") (Val.dict []) = Val.dict rtw := by
  have h : dget (results3 rnv rtw rwp) "twilio" = Val.dict rtw := rfl
  rw [h, pyOr_dict_empty]

theorem pyOr_none (b : Val) : pyOr Val.none b = b := rfl

theorem dget_initMerged_canon (number : String) (results : List (String × Val))
    (k : String) (hk : k ∈ canonicalFields) :
    dget (initMerged number results) k = Val.none := by
  fin_cases hk <;> rfl

/- ====================== Claim data and theorems ====================== -/

/-- Numverify result of the C1 scenario: available, carrier Acme,
line_type mobile. -/
def nvAcme : List (String × Val) :=
  [("provider", Val.str "numverify"), ("available", Val.bool true),
   ("carrier", Val.str "Acme"), ("line_type", Val.str "mobile")]

/-- Twilio result of the C1 scenario: available, nested carrier with
name Other (Twilio nests carrier info, per line 154). -/
def twOther : List (String × Val) :=
  [("provider", Val.str "twilio"), ("available", Val.bool true),
   ("carrier", Val.dict [("name", Val.str "Other")])]

/-- An unavailable whitepages result. -/
def wpOff : List (String × Val) :=
  [("provider", Val.str "whitepages"), ("available", Val.bool false),
   ("error", Val.str "No WHITEPAGES_KEY configured")]

/-- The C1 scenario fan-out outcome. -/
def fanC1 : FanIn := ⟨Except.ok nvAcme, Except.ok twOther, Except.ok wpOff⟩

/-- C1, counterexample. In the claim's own scenario (higher-priority
Numverify available with carrier "Acme" and line_type "mobile",
lower-priority Twilio available with carrier name "Other"), the
consolidated carrier is "Other", not "Acme": the Twilio block's
`carrier.get("name") or merged["carrier"]` (line 157) lets the
lower-priority provider's non-empty value overwrite the higher-priority
one, refuting first-wins merge priority. -/
theorem c1_first_wins_cex :
    (aggregate_lookups "+919812345678" fanC1).map
        (fun b => vget (vget b "merged") "carrier") = Except.ok (Val.str "Other") ∧
    Val.str "Other" ≠ Val.str "Acme" ∧
    (aggregate_lookups "+919812345678" fanC1).map
        (fun b => vget (vget b "merged") "line_type") = Except.ok (Val.str "mobile") := by
  refine ⟨rfl, ?_, rfl⟩
  intro h
  injection h with h'
  exact absurd h' (by decide)

/-- C1 amended: merge priority for the fields the Twilio block writes is
last-wins, not first-wins. If Numverify and Twilio are both available
and Twilio's carrier dict carries a non-empty name, the consolidated
carrier is Twilio's name (overwriting any Numverify value); a field
keeps Numverify's value only where Twilio supplies an empty one, e.g.
line_type stays Numverify's when the Twilio carrier dict has no type.
In the claim's scenario the consolidated carrier is "Other" and
line_type is "mobile". -/
theorem c1_last_wins (number : String)
    (rnv rtw rwp c M : List (String × Val))
    (hnv : truthy (dget rnv "available") = true)
    (htw : truthy (dget rtw "available") = true)
    (hc : dget rtw "carrier" = Val.dict c)
    (hname : truthy (dget c "name") = true)
    (hM : mergedOfE number (results3 rnv rtw rwp) = Except.ok M) :
    dget M "carrier" = dget c "name" ∧
    (dget c "type" = Val.none → truthy (dget rnv "line_type") = true →
      dget M "line_type" = dget rnv "line_type") := by
  rcases mergedOfE_ok_cases _ _ _ hM with ⟨hf, _⟩ | ⟨_, m2, hok, hMeq⟩
  · rw [results3_tw, vget_dict, htw] at hf
    cases hf
  · subst hMeq
    rw [results3_tw] at hok ⊢
    rw [results3_nv] at hok
    rcases mergeTwCarrier_ok_cases _ _ _ hok with ⟨hfal, rfl⟩ | ⟨d, hd, hdt, rfl⟩
    · rw [vget_dict, hc, pyOr_dict_empty,
        truthy_dict_of_dget c "name" hname] at hfal
      cases hfal
    · rw [vget_dict, hc, pyOr_dict_empty] at hd
      injection hd with hd'
      subst hd'
      constructor
      · rw [dget_mergeTwCn]
        simp only [show ("carrier" : String) = "caller_name" ↔ False by simp,
          if_false, iff_false]
        rw [dget_dset]
        simp only [show ("carrier" : String) = "line_type" ↔ False by simp]
        rw [if_neg (by simp), dget_dset, if_pos rfl, pyOr_of_true hname]
      · intro htype hlt
        rw [dget_mergeTwCn]
        rw [if_neg (by simp), dget_dset, if_pos rfl, htype, pyOr_none,
          dget_dset, if_neg (by simp), dget_mergeTwPhone, if_neg (by simp),
          dget_mergeNv, vget_dict, hnv, if_pos rfl]
        simp only [show ("line_type" : String) = "international_format" ↔ False by simp,
          show ("line_type" : String) = "valid" ↔ False by simp]
        rw [if_neg (by simp), if_neg (by simp), if_neg (by simp),
          if_neg (by simp), if_neg (by simp), if_neg (by simp),
          dget_initMerged_canon _ _ _ (by decide), vget_dict,
          pyOr_of_true hlt]
        simp

/-- Witness for c1_last_wins at the C1 scenario data. -/
theorem c1_last_wins_witness :
    ∃ M, mergedOfE "+919812345678" (results3 nvAcme twOther wpOff) = Except.ok M ∧
      dget M "carrier" = Val.str "Other" ∧ dget M "line_type" = Val.str "mobile" := by
  obtain ⟨M, hM⟩ :
      ∃ M, mergedOfE "+919812345678" (results3 nvAcme twOther wpOff) = Except.ok M :=
    ⟨_, rfl⟩
  have h := c1_last_wins "+919812345678" nvAcme twOther wpOff
    [("name", Val.str "Other")] M rfl rfl rfl rfl hM
  refine ⟨M, hM, ?_, ?_⟩
  · rw [h.1]; rfl
  · rw [h.2 rfl rfl]; rfl

theorem dget_set_provider_available (data : List (String × Val)) (pname : String)
    (k : String) (hk1 : k ≠ "provider") (hk2 : k ≠ "available") :
    dget (dset (dset data "provider" (Val.str pname)) "available" (Val.bool true)) k
      = dget data k := by
  rw [dget_dset, if_neg hk2, dget_dset, if_neg hk1]

theorem dget_set_available (data : List (String × Val)) (pname : String) :
    dget (dset (dset data "provider" (Val.str pname)) "available" (Val.bool true))
      "available" = Val.bool true := by
  rw [dget_dset, if_pos rfl]

/-- Environment with only Twilio credentials configured. -/
def envTwOnly : Env := ⟨Val.none, Val.str "sid", Val.str "auth", Val.none⟩

/-- Environment with only a Numverify key configured. -/
def envNvOnly : Env := ⟨Val.str "key", Val.none, Val.none, Val.none⟩

/-- Environment with no credentials configured at all. -/
def envEmpty : Env := ⟨Val.none, Val.none, Val.none, Val.none⟩

/-- C2, counterexample. Twilio's non-200 branch (line 79) yields
available=false with `status_code` and `text` but no `error` key; and
Numverify's success branch (lines 51-54) copies the provider body
verbatim, so a 200 body that itself contains an `error` key (as the
Numverify API sends on over-quota) yields available=true with `error`
set. Both refute the claimed invariant. -/
theorem c2_error_discipline_cex :
    (dget (call_twilio_lookup envTwOnly (TwResp.resp 404 [] "not found"))
        "available" = Val.bool false ∧
      dget (call_twilio_lookup envTwOnly (TwResp.resp 404 [] "not found"))
        "error" = Val.none) ∧
    (dget (call_numverify envNvOnly (Except.ok [("error", Val.str "rate limit")]))
        "available" = Val.bool true ∧
      dget (call_numverify envNvOnly (Except.ok [("error", Val.str "rate limit")]))
        "error" = Val.str "rate limit") :=
  ⟨⟨rfl, rfl⟩, ⟨rfl, rfl⟩⟩

/-- C2 amended: every failure dict the wrappers themselves construct has
available=false and carries an error string, except Twilio's non-200
branch, which carries status_code and text instead of error; and an
available=true result reproduces exactly the provider body's own error
field (so no error is present when the body has none, but the invariant
"available=true implies no error" holds only up to the body). -/
theorem c2_error_discipline (env : Env)
    (nvResp : Except String (List (String × Val))) (twResp : TwResp) :
    (dget (call_numverify env nvResp) "available" = Val.bool false →
      ∃ s, dget (call_numverify env nvResp) "error" = Val.str s) ∧
    (∀ data, nvResp = Except.ok data → truthy env.NUMVERIFY_KEY = true →
      dget (call_numverify env nvResp) "available" = Val.bool true ∧
      dget (call_numverify env nvResp) "error" = dget data "error") ∧
    (dget (call_twilio_lookup env twResp) "available" = Val.bool false →
      (∃ s, dget (call_twilio_lookup env twResp) "error" = Val.str s) ∨
      (∃ n t, dget (call_twilio_lookup env twResp) "status_code" = Val.int n ∧
        dget (call_twilio_lookup env twResp) "text" = Val.str t)) ∧
    (∀ status body text, twResp = TwResp.resp status body text → status = 200 →
      (truthy env.TWILIO_SID && truthy env.TWILIO_AUTH) = true →
      dget (call_twilio_lookup env twResp) "available" = Val.bool true ∧
      dget (call_twilio_lookup env twResp) "error" = dget body "error") ∧
    (dget (call_whitepages_placeholder env) "available" = Val.bool false ∧
      ∃ s, dget (call_whitepages_placeholder env) "error" = Val.str s) := by
  refine ⟨?_, ?_, ?_, ?_, ?_⟩
  · cases hk : truthy env.NUMVERIFY_KEY with
    | false =>
        intro _
        exact ⟨"No NUMVERIFY_KEY configured", by simp [call_numverify, hk, dget]⟩
    | true =>
        cases nvResp with
        | ok data =>
            intro hav
            rw [show call_numverify env (Except.ok data)
                = dset (dset data "provider" (Val.str "numverify"))
                    "available" (Val.bool true) by simp [call_numverify, hk],
              dget_set_available] at hav
            cases hav
        | error e =>
            intro _
            exact ⟨e, by simp [call_numverify, hk, dget]⟩
  · intro data hdata hk
    subst hdata
    rw [show call_numverify env (Except.ok data)
        = dset (dset data "provider" (Val.str "numverify"))
            "available" (Val.bool true) by simp [call_numverify, hk]]
    exact ⟨dget_set_available _ _,
      dget_set_provider_available _ _ _ (by simp) (by simp)⟩
  · cases hk : truthy env.TWILIO_SID && truthy env.TWILIO_AUTH with
    | false =>
        intro _
        exact Or.inl ⟨"No Twilio credentials configured",
          by simp [call_twilio_lookup, hk, dget]⟩
    | true =>
        cases twResp with
        | exc e => intro _; exact Or.inl ⟨e, by simp [call_twilio_lookup, hk, dget]⟩
        | resp status body text =>
            cases hs : status == 200 with
            | true =>
                intro hav
                rw [show call_twilio_lookup env (TwResp.resp status body text)
                    = dset (dset body "provider" (Val.str "twilio"))
                        "available" (Val.bool true)
                      by simp [call_twilio_lookup, hk, hs],
                  dget_set_available] at hav
                cases hav
            | false =>
                intro _
                exact Or.inr ⟨status, text, by simp [call_twilio_lookup, hk, hs, dget]⟩
  · intro status body text hresp hs hk
    subst hresp
    rw [show call_twilio_lookup env (TwResp.resp status body text)
        = dset (dset body "provider" (Val.str "twilio")) "available" (Val.bool true)
      by simp [call_twilio_lookup, hk, hs]]
    exact ⟨dget_set_available _ _,
      dget_set_provider_available _ _ _ (by simp) (by simp)⟩
  · cases hk : truthy env.WHITEPAGES_KEY with
    | false =>
        exact ⟨by simp [call_whitepages_placeholder, hk, dget],
          "No WHITEPAGES_KEY configured",
          by simp [call_whitepages_placeholder, hk, dget]⟩
    | true =>
        exact ⟨by simp [call_whitepages_placeholder, hk, dget],
          "Placeholder - configure Whitepages integration",
          by simp [call_whitepages_placeholder, hk, dget]⟩

/-- Witness for c2_error_discipline: an unconfigured Numverify call is
unavailable with an error string. -/
theorem c2_error_discipline_witness :
    dget (call_numverify envEmpty (Except.error "boom")) "available" = Val.bool false ∧
    ∃ s, dget (call_numverify envEmpty (Except.error "boom")) "error" = Val.str s := by
  refine ⟨rfl, ?_⟩
  exact (c2_error_discipline envEmpty (Except.error "boom") (TwResp.exc "x")).1 rfl

/-- Fields the merge never writes keep their initial value. -/
theorem dget_mergedOfE_untouched (number : String)
    (results M : List (String × Val))
    (h : mergedOfE number results = Except.ok M) (k : String)
    (h1 : k ≠ "international_format") (h2 : k ≠ "valid")
    (h3 : k ≠ "country_name") (h4 : k ≠ "country_code") (h5 : k ≠ "location")
    (h6 : k ≠ "carrier") (h7 : k ≠ "line_type") (h8 : k ≠ "caller_name") :
    dget M k = dget (initMerged number results) k := by
  rcases mergedOfE_ok_cases _ _ _ h with ⟨_, rfl⟩ | ⟨_, m2, hok, rfl⟩
  · rw [dget_mergeNv]
    split <;> rfl
  · rw [dget_mergeTwCn, if_neg h8]
    rcases mergeTwCarrier_ok_cases _ _ _ hok with ⟨_, rfl⟩ | ⟨d, _, _, rfl⟩
    · rw [dget_mergeTwPhone, if_neg h1, dget_mergeNv]
      split <;> rfl
    · rw [dget_dset, if_neg h7, dget_dset, if_neg h6,
        dget_mergeTwPhone, if_neg h1, dget_mergeNv]
      split <;> rfl

/-- Fan-out outcome when no provider is configured: all three providers
return their not-configured failure dicts without raising. -/
def fanDown : FanIn :=
  ⟨Except.ok (call_numverify envEmpty (Except.error "unreachable")),
   Except.ok (call_twilio_lookup envEmpty (TwResp.exc "unreachable")),
   Except.ok (call_whitepages_placeholder envEmpty)⟩

/-- C3, counterexample. The key "abc" does not match `+` followed by
digits (the `num_handler` check rejects it), yet the core
`aggregate_lookups` raises no input-validation error at all: it performs
the full fan-out (one raw entry per provider) and returns a bundle
echoing the malformed key. -/
theorem c3_core_validation_cex :
    numberSanitized "abc" = false ∧
    (aggregate_lookups "abc" fanDown).map
        (fun b => vget (vget b "merged") "queried_number")
      = Except.ok (Val.str "abc") ∧
    (aggregate_lookups "abc" fanDown).map (fun b => vget b "raw")
      = Except.ok (Val.dict (fanOutResults fanDown)) ∧
    akeys (fanOutResults fanDown) = ["numverify", "twilio", "whitepages"] :=
  ⟨rfl, rfl, rfl, rfl⟩

/-- C3 amended: the core performs no input validation and never raises
an input-validation error: for any key, malformed ones included, it runs
the full fan-out, and whenever it returns a bundle the bundle echoes the
unvalidated key and holds one raw entry per provider. Malformed keys are
rejected only by the front-end `num_handler` before the core is invoked. -/
theorem c3_core_no_validation (number : String) (f : FanIn) (b : Val)
    (hbad : numberSanitized number = false)
    (hok : aggregate_lookups number f = Except.ok b) :
    vget (vget b "merged") "queried_number" = Val.str number ∧
    vget b "raw" = Val.dict (fanOutResults f) ∧
    akeys (fanOutResults f) = ["numverify", "twilio", "whitepages"] := by
  unfold aggregate_lookups mergeAndBundle at hok
  cases hm : mergedOfE number (fanOutResults f) with
  | error e => rw [hm] at hok; simp [Except.map] at hok
  | ok M =>
      rw [hm] at hok
      simp only [Except.map, Except.ok.injEq] at hok
      subst hok
      refine ⟨?_, rfl, rfl⟩
      show dget M "queried_number" = Val.str number
      rw [dget_mergedOfE_untouched number _ M hm "queried_number"
        (by simp) (by simp) (by simp) (by simp) (by simp) (by simp) (by simp)
        (by simp)]
      rfl

/-- Witness for c3_core_no_validation at the malformed key "abc". -/
theorem c3_core_no_validation_witness :
    ∃ b, aggregate_lookups "abc" fanDown = Except.ok b ∧
      vget (vget b "merged") "queried_number" = Val.str "abc" := by
  obtain ⟨b, hb⟩ : ∃ b, aggregate_lookups "abc" fanDown = Except.ok b := ⟨_, rfl⟩
  exact ⟨b, hb, (c3_core_no_validation "abc" fanDown b rfl hb).1⟩

/-- The consolidated `valid` is written only at line 141, from Numverify,
guarded by an `is None` test on a value that is still its initial
`None`; the Twilio block never touches `valid`. -/
theorem dget_mergedOfE_valid (number : String)
    (results M : List (String × Val))
    (h : mergedOfE number results = Except.ok M) :
    dget M "valid" =
      if truthy (vget (pyOr (dget results "numverify") (Val.dict [])) "available") then
        vget (pyOr (dget results "numverify") (Val.dict [])) "valid"
      else Val.none := by
  rcases mergedOfE_ok_cases _ _ _ h with ⟨_, rfl⟩ | ⟨_, m2, hok, rfl⟩
  · rw [dget_mergeNv]
    split <;> rfl
  · rw [dget_mergeTwCn, if_neg (by simp)]
    rcases mergeTwCarrier_ok_cases _ _ _ hok with ⟨_, rfl⟩ | ⟨d, _, _, rfl⟩
    · rw [dget_mergeTwPhone, if_neg (by simp), dget_mergeNv]
      split <;> rfl
    · rw [dget_dset, if_neg (by simp), dget_dset, if_neg (by simp),
        dget_mergeTwPhone, if_neg (by simp), dget_mergeNv]
      split <;> rfl

/-- C5: the consolidated `valid` follows first-answer-wins including an
explicit false. If the higher-priority Numverify is available and states
valid=false, the consolidated valid is false even when the
lower-priority available Twilio states valid=true: the boolean false
counts as set (line 141 guards with `is None`, not truthiness), and the
Twilio block never writes `valid` at all. -/
theorem c5_valid_first_wins (number : String)
    (rnv rtw rwp M : List (String × Val))
    (hnv : truthy (dget rnv "available") = true)
    (hvalid : dget rnv "valid" = Val.bool false)
    (htw : truthy (dget rtw "available") = true)
    (htwvalid : dget rtw "valid" = Val.bool true)
    (hM : mergedOfE number (results3 rnv rtw rwp) = Except.ok M) :
    dget M "valid" = Val.bool false := by
  rw [dget_mergedOfE_valid number _ M hM, results3_nv, vget_dict, vget_dict,
    hnv, if_pos rfl, hvalid]

/-- Numverify result answering valid=false. -/
def nvInvalid : List (String × Val) :=
  [("provider", Val.str "numverify"), ("available", Val.bool true),
   ("valid", Val.bool false)]

/-- Twilio result answering valid=true. -/
def twValid : List (String × Val) :=
  [("provider", Val.str "twilio"), ("available", Val.bool true),
   ("valid", Val.bool true)]

/-- Witness for c5_valid_first_wins: Numverify says false, Twilio says
true, consolidated valid is false. -/
theorem c5_valid_first_wins_witness :
    ∃ M, mergedOfE "+14155552671" (results3 nvInvalid twValid wpOff) = Except.ok M ∧
      dget M "valid" = Val.bool false := by
  obtain ⟨M, hM⟩ :
      ∃ M, mergedOfE "+14155552671" (results3 nvInvalid twValid wpOff) = Except.ok M :=
    ⟨_, rfl⟩
  exact ⟨M, hM,
    c5_valid_first_wins "+14155552671" nvInvalid twValid wpOff M rfl rfl rfl rfl hM⟩

/-- C7: when every provider comes back unavailable, the merge raises
nothing and returns a bundle whose consolidated record has every
canonical field still `None` — unavailable providers contribute to no
field (both merge blocks are guarded by the provider's `available`). -/
theorem c7_all_unavailable_empty (number : String) (f : FanIn)
    (h1 : truthy (dget (catchCall "numverify" f.nv) "available") = false)
    (h2 : truthy (dget (catchCall "twilio" f.tw) "available") = false)
    (h3 : truthy (dget (catchCall "whitepages" f.wp) "available") = false) :
    ∃ M, mergedOfE number (fanOutResults f) = Except.ok M ∧
      ∀ k ∈ canonicalFields, dget M k = Val.none := by
  have e1 : pyOr (dget (fanOutResults f) "numverify") (Val.dict [])
      = Val.dict (catchCall "numverify" f.nv) := by
    rw [fanOutResults_eq_results3, results3_nv]
  have e2 : pyOr (dget (fanOutResults f) "twilio") (Val.dict [])
      = Val.dict (catchCall "twilio" f.tw) := by
    rw [fanOutResults_eq_results3, results3_tw]
  refine ⟨initMerged number (fanOutResults f), ?_, ?_⟩
  · unfold mergedOfE mergeTw mergeNv
    rw [e1, e2, vget_dict, vget_dict, h1, h2]
    simp
  · intro k hk
    exact dget_initMerged_canon number _ k hk

/-- Witness for c7_all_unavailable_empty with the all-unconfigured
fan-out: the consolidated carrier is empty. -/
theorem c7_all_unavailable_empty_witness :
    ∃ M, mergedOfE "+15550100" (fanOutResults fanDown) = Except.ok M ∧
      ∀ k ∈ canonicalFields, dget M k = Val.none :=
  c7_all_unavailable_empty "+15550100" fanDown rfl rfl rfl

/-- C8: the fan-out yields exactly one entry per configured provider
(keys numverify, twilio, whitepages, never fewer), and a provider call
that raises is converted into a failure dict tagged with that provider's
name, while a returning call's dict is passed through unchanged. -/
theorem c8_fanout_isolation (f : FanIn) :
    akeys (fanOutResults f) = ["numverify", "twilio", "whitepages"] ∧
    (∀ e, f.nv = Except.error e → dget (fanOutResults f) "numverify"
      = Val.dict [("provider", Val.str "numverify"),
          ("available", Val.bool false), ("error", Val.str e)]) ∧
    (∀ e, f.tw = Except.error e → dget (fanOutResults f) "twilio"
      = Val.dict [("provider", Val.str "twilio"),
          ("available", Val.bool false), ("error", Val.str e)]) ∧
    (∀ e, f.wp = Except.error e → dget (fanOutResults f) "whitepages"
      = Val.dict [("provider", Val.str "whitepages"),
          ("available", Val.bool false), ("error", Val.str e)]) ∧
    (∀ d, f.nv = Except.ok d → dget (fanOutResults f) "numverify" = Val.dict d) ∧
    (∀ d, f.tw = Except.ok d → dget (fanOutResults f) "twilio" = Val.dict d) ∧
    (∀ d, f.wp = Except.ok d → dget (fanOutResults f) "whitepages" = Val.dict d) := by
  refine ⟨rfl, ?_, ?_, ?_, ?_, ?_, ?_⟩ <;>
    · intro x hx
      unfold fanOutResults catchCall
      rw [hx]
      rfl

/-- Witness for c8_fanout_isolation: a numverify call raising "boom" is
replaced by a tagged failure entry, with the other entries intact. -/
theorem c8_fanout_isolation_witness :
    dget (fanOutResults ⟨Except.error "boom", Except.ok [], Except.ok []⟩)
        "numverify"
      = Val.dict [("provider", Val.str "numverify"),
          ("available", Val.bool false), ("error", Val.str "boom")] :=
  (c8_fanout_isolation ⟨Except.error "boom", Except.ok [], Except.ok []⟩).2.1
    "boom" rfl

/-- An available Twilio result whose `carrier` field is a truthy
non-dict value (a bare string instead of Twilio's usual nested object). -/
def twBadCarrier : List (String × Val) :=
  [("provider", Val.str "twilio"), ("available", Val.bool true),
   ("carrier", Val.str "Vodafone")]

/-- C9, counterexample. Not every combination of provider results yields
a bundle: when the available Twilio result carries a truthy non-dict
`carrier` value, line 157 calls `.get` on it and the merge raises
AttributeError (the caller-name step has an `isinstance` guard, the
carrier step does not), so the aggregation returns no bundle at all. -/
theorem c9_bundle_shape_cex :
    aggregate_lookups "+14155552671"
        ⟨Except.ok nvAcme, Except.ok twBadCarrier, Except.ok wpOff⟩
      = Except.error "AttributeError: object has no attribute get" := rfl

/-- C9 amended: whenever the aggregation does return a bundle (it
raises AttributeError exactly when an available Twilio result carries a
truthy non-dict carrier), the bundle has the fixed shape: merged holds
exactly the ten keys queried_number, providers, international_format,
valid, country_name, country_code, location, carrier, line_type,
caller_name; queried_number echoes the input; and raw is exactly the
per-provider results dict with keys numverify, twilio, whitepages,
which merged's providers key aliases. -/
theorem c9_bundle_shape (number : String) (f : FanIn) (b : Val)
    (hok : aggregate_lookups number f = Except.ok b) :
    ∃ M, mergedOfE number (fanOutResults f) = Except.ok M ∧
      b = Val.dict [("merged", Val.dict M),
            ("raw", Val.dict (fanOutResults f))] ∧
      akeys M = mergedKeys ∧
      dget M "queried_number" = Val.str number ∧
      dget M "providers" = Val.dict (fanOutResults f) ∧
      akeys (fanOutResults f) = ["numverify", "twilio", "whitepages"] := by
  unfold aggregate_lookups mergeAndBundle at hok
  cases hm : mergedOfE number (fanOutResults f) with
  | error e => rw [hm] at hok; simp [Except.map] at hok
  | ok M =>
      rw [hm] at hok
      simp only [Except.map, Except.ok.injEq] at hok
      refine ⟨M, rfl, hok.symm, akeys_mergedOfE_ok _ _ _ hm, ?_, ?_, rfl⟩
      · rw [dget_mergedOfE_untouched number _ M hm "queried_number"
          (by simp) (by simp) (by simp) (by simp) (by simp) (by simp) (by simp)
          (by simp)]
        rfl
      · rw [dget_mergedOfE_untouched number _ M hm "providers"
          (by simp) (by simp) (by simp) (by simp) (by simp) (by simp) (by simp)
          (by simp)]
        rfl

/-- Witness for c9_bundle_shape on the C1 scenario fan-out. -/
theorem c9_bundle_shape_witness :
    ∃ b, aggregate_lookups "+14155552671" fanC1 = Except.ok b ∧
      ∃ M, mergedOfE "+14155552671" (fanOutResults fanC1) = Except.ok M ∧
        akeys M = mergedKeys := by
  obtain ⟨b, hb⟩ : ∃ b, aggregate_lookups "+14155552671" fanC1 = Except.ok b :=
    ⟨_, rfl⟩
  obtain ⟨M, hM, _, hkeys, _⟩ := c9_bundle_shape "+14155552671" fanC1 b hb
  exact ⟨b, hb, M, hM, hkeys⟩

/-- Agreement of two dicts on every canonical field. -/
def EqCanon (m m' : List (String × Val)) : Prop :=
  ∀ j ∈ canonicalFields, dget m j = dget m' j

theorem eqCanon_dset2 (m m' : List (String × Val)) (h : EqCanon m m')
    (key : String) (v v' : Val) (hv : v = v') :
    EqCanon (dset m key v) (dset m' key v') := by
  subst hv
  intro j hj
  rw [dget_dset, dget_dset]
  by_cases hk : j = key
  · simp [hk]
  · rw [if_neg hk, if_neg hk]
    exact h j hj

theorem eqCanon_mergeNv_init (nv : Val) (n n' : String)
    (r r' : List (String × Val)) :
    EqCanon (mergeNv nv (initMerged n r)) (mergeNv nv (initMerged n' r')) := by
  intro j hj
  rw [dget_mergeNv, dget_mergeNv]
  fin_cases hj <;> by_cases ha : truthy (vget nv "available") <;>
    simp [ha, initMerged, dget, isNoneV]

theorem eqCanon_mergeTwPhone (tw : Val) (m m' : List (String × Val))
    (h : EqCanon m m') : EqCanon (mergeTwPhone tw m) (mergeTwPhone tw m') := by
  intro j hj
  rw [dget_mergeTwPhone, dget_mergeTwPhone]
  by_cases hk : j = "international_format"
  · subst hk
    rw [if_pos rfl, if_pos rfl, h "international_format" (by decide)]
  · rw [if_neg hk, if_neg hk]
    exact h j hj

theorem eqCanon_mergeTwCn (tw : Val) (m m' : List (String × Val))
    (h : EqCanon m m') : EqCanon (mergeTwCn tw m) (mergeTwCn tw m') := by
  intro j hj
  rw [dget_mergeTwCn, dget_mergeTwCn]
  by_cases hk : j = "caller_name"
  · subst hk
    rw [if_pos rfl, if_pos rfl, h "caller_name" (by decide)]
  · rw [if_neg hk, if_neg hk]
    exact h j hj

/-- The canonical fields of the merge depend only on the numverify and
twilio entries of `results`; the `queried_number` and the results dict
stored under `providers` may differ. -/
theorem mergeSteps_canonical_congr (nv tw : Val) (n n' : String)
    (r r' : List (String × Val)) (k : String) (hk : k ∈ canonicalFields) :
    (mergeTw tw (mergeNv nv (initMerged n r))).map (fun M => dget M k)
      = (mergeTw tw (mergeNv nv (initMerged n' r'))).map (fun M => dget M k) := by
  have hbase := eqCanon_mergeNv_init nv n n' r r'
  unfold mergeTw
  cases ht : truthy (vget tw "available") with
  | false =>
      simp only [Bool.false_eq_true, if_false, Except.map]
      exact congrArg Except.ok (hbase k hk)
  | true =>
      simp only [if_true]
      have hphone := eqCanon_mergeTwPhone tw _ _ hbase
      simp only [mergeTwCarrier]
      cases hc : truthy (pyOr (vget tw "carrier") (Val.dict [])) with
      | false =>
          simp only [Bool.false_eq_true, if_false, Except.map]
          exact congrArg Except.ok (eqCanon_mergeTwCn tw _ _ hphone k hk)
      | true =>
          simp only [if_true]
          cases hv : pyOr (vget tw "carrier") (Val.dict []) with
          | dict d =>
              simp only [Except.map]
              refine congrArg Except.ok ?_
              have hinner := eqCanon_dset2 _ _ hphone "carrier"
                (pyOr (dget d "name")
                  (dget (mergeTwPhone tw (mergeNv nv (initMerged n r))) "carrier"))
                (pyOr (dget d "name")
                  (dget (mergeTwPhone tw (mergeNv nv (initMerged n' r'))) "carrier"))
                (by rw [hphone "carrier" (by decide)])
              have houter := eqCanon_dset2 _ _ hinner "line_type"
                (pyOr (dget d "type")
                  (dget (dset (mergeTwPhone tw (mergeNv nv (initMerged n r)))
                    "carrier"
                    (pyOr (dget d "name")
                      (dget (mergeTwPhone tw (mergeNv nv (initMerged n r)))
                        "carrier"))) "line_type"))
                (pyOr (dget d "type")
                  (dget (dset (mergeTwPhone tw (mergeNv nv (initMerged n' r')))
                    "carrier"
                    (pyOr (dget d "name")
                      (dget (mergeTwPhone tw (mergeNv nv (initMerged n' r')))
                        "carrier"))) "line_type"))
                (by rw [hinner "line_type" (by decide)])
              exact eqCanon_mergeTwCn tw _ _ houter k hk
          | none => rfl
          | str s => rfl
          | bool b => rfl
          | int i => rfl

theorem mergedOfE_canonical_congr (n n' : String)
    (results results' : List (String × Val))
    (hnv : dget results "numverify" = dget results' "numverify")
    (htw : dget results "twilio" = dget results' "twilio")
    (k : String) (hk : k ∈ canonicalFields) :
    (mergedOfE n results).map (fun M => dget M k)
      = (mergedOfE n' results').map (fun M => dget M k) := by
  unfold mergedOfE
  rw [hnv, htw]
  exact mergeSteps_canonical_congr _ _ n n' results results' k hk

/-- C10: the whitepages provider never contributes. Its call returns
available=false for every environment, a configured WHITEPAGES_KEY
included, and the merge never reads the whitepages entry into any
canonical field: replacing the whitepages result by anything else leaves
every consolidated canonical field (and the merge's success) unchanged. -/
theorem c10_whitepages_inert (env : Env) (number : String)
    (rnv rtw rwp rwp' : List (String × Val)) :
    dget (call_whitepages_placeholder env) "available" = Val.bool false ∧
    ∀ k ∈ canonicalFields,
      (mergedOfE number (results3 rnv rtw rwp)).map (fun M => dget M k)
        = (mergedOfE number (results3 rnv rtw rwp')).map (fun M => dget M k) := by
  constructor
  · unfold call_whitepages_placeholder
    split <;> rfl
  · intro k hk
    exact mergedOfE_canonical_congr number number (results3 rnv rtw rwp)
      (results3 rnv rtw rwp') rfl rfl k hk

/-- Witness for c10_whitepages_inert: even an available whitepages dict
carrying carrier data leaves the consolidated carrier unchanged. -/
theorem c10_whitepages_inert_witness :
    (mergedOfE "+15550100" (results3 nvAcme twOther wpOff)).map
        (fun M => dget M "carrier")
      = (mergedOfE "+15550100" (results3 nvAcme twOther
          [("available", Val.bool true), ("carrier", Val.str "WP")])).map
        (fun M => dget M "carrier") :=
  (c10_whitepages_inert envEmpty "+15550100" nvAcme twOther wpOff
    [("available", Val.bool true), ("carrier", Val.str "WP")]).2
    "carrier" (by decide)

/-- C6: cache idempotence. Starting from a state where the key is not
cached, two consecutive calls within the TTL window return the identical
bundle; the first call inserts the bundle and runs one fan-out, the
second is a pure cache hit that leaves the state (and hence the fan-out
count) completely unchanged — zero provider invocations, whatever the
providers would have answered on the second call. -/
theorem c6_cache_idempotent (number : String) (f f2 : FanIn)
    (t1 t2 ttl : Nat) (st : CacheState) (v : Val)
    (habs : cacheFind st.entries number = Option.none)
    (hv : aggregate_lookups number f = Except.ok v)
    (h12 : t1 ≤ t2) (hwin : t2 ≤ t1 + ttl) :
    cached_aggregate number f t1 ttl st
      = (Except.ok v,
         ⟨cacheInsert st.entries number ⟨v, t1 + ttl⟩, st.fanouts + 1⟩) ∧
    cached_aggregate number f2 t2 ttl (cached_aggregate number f t1 ttl st).2
      = (Except.ok v, (cached_aggregate number f t1 ttl st).2) := by
  have h1 : cached_aggregate number f t1 ttl st
      = (Except.ok v,
         ⟨cacheInsert st.entries number ⟨v, t1 + ttl⟩, st.fanouts + 1⟩) := by
    unfold cached_aggregate
    rw [habs]
    unfold cacheMiss
    rw [hv]
  refine ⟨h1, ?_⟩
  rw [h1]
  unfold cached_aggregate
  rw [show (⟨cacheInsert st.entries number ⟨v, t1 + ttl⟩, st.fanouts + 1⟩ :
      CacheState).entries = cacheInsert st.entries number ⟨v, t1 + ttl⟩ from rfl,
    cacheFind_insert]
  simp [hwin]

/-- Witness for c6_cache_idempotent: two calls at times 0 and 1 with
TTL 3600 on an empty cache. -/
theorem c6_cache_idempotent_witness :
    ∃ v, aggregate_lookups "+14155552671" fanDown = Except.ok v ∧
      cached_aggregate "+14155552671" fanDown 1 3600
          (cached_aggregate "+14155552671" fanDown 0 3600 ⟨[], 0⟩).2
        = (Except.ok v,
           (cached_aggregate "+14155552671" fanDown 0 3600 ⟨[], 0⟩).2) := by
  obtain ⟨v, hv⟩ : ∃ v, aggregate_lookups "+14155552671" fanDown = Except.ok v :=
    ⟨_, rfl⟩
  exact ⟨v, hv,
    (c6_cache_idempotent "+14155552671" fanDown fanDown 0 1 3600 ⟨[], 0⟩ v
      rfl hv (by decide) (by decide)).2⟩

end LB
